import Mathlib

/-!
Shallow embedding of the POLYCORE game core (src/POLYCORE.py) and proofs
about its simulation logic: ability cooldowns and charges, enemy spawning,
enemy kinematics, collision detection, player movement clamping and the
procedural shape renderer.

Conventions of the embedding:
  * the Python clock (pygame.time.get_ticks, integer milliseconds) is ℤ;
  * Python floats are modelled as exact real numbers (ℝ), except where a
    value is provably rational end to end (the score), where ℚ is used so
    that statements stay decidable;
  * Python int() truncation toward zero is py_int / py_intf;
  * random samples consumed by a function are passed to it explicitly, so
    the embedded functions are total functions of state, clock and samples.
-/

namespace Polycore

/-! ## Constants (src/POLYCORE.py lines 14-39) -/

def SCREEN_WIDTH : ℤ := 1200
def SCREEN_HEIGHT : ℤ := 800
def PLAYER_SIZE : ℤ := 12
def PLAYER_SPEED : ℤ := 5
def DASH_SPEED : ℤ := 100
def DASH_COOLDOWN : ℤ := 1000
def FOCUS_COOLDOWN : ℤ := 10000
def PULSE_COOLDOWN : ℤ := 3000
def SHRINK_DURATION : ℤ := 2000
def SHRINK_COOLDOWN : ℤ := 8000

/-- Color is an RGB triple of machine integers. -/
abbrev Color : Type := ℤ × ℤ × ℤ

def BLACK : Color := (0, 0, 0)
def WHITE : Color := (255, 255, 255)
def CYAN : Color := (100, 255, 255)

/-- Python int() on a rational: truncation toward zero. -/
def py_int (q : ℚ) : ℤ := if 0 ≤ q then ⌊q⌋ else ⌈q⌉

/-- Python int() on a real: truncation toward zero. -/
noncomputable def py_intf (r : ℝ) : ℤ := if 0 ≤ r then ⌊r⌋ else ⌈r⌉

/-! ## Pulse charge regeneration (GameState.update_abilities, lines 348-350)

Source:
  if self.pulse_uses < 5 and current_time - self.last_pulse > PULSE_COOLDOWN * 2:
      self.pulse_uses = min(5, self.pulse_uses + 1)
This runs once per simulation tick. -/

def regen_pulse_uses (current_time last_pulse pulse_uses : ℤ) : ℤ :=
  if pulse_uses < 5 ∧ current_time - last_pulse > PULSE_COOLDOWN * 2 then
    min 5 (pulse_uses + 1)
  else pulse_uses

/-! ## Shrink ability (GameState.handle_abilities lines 305-311,
GameState.update_abilities lines 343-346) -/

structure ShrinkState where
  is_shrunk : Bool
  shrink_end_time : ℤ
  last_shrink : ℤ
  player_size : ℤ
deriving DecidableEq

/-- Initial ability state relevant to shrink (GameState.__init__ / reset_game). -/
def init_shrink : ShrinkState :=
  { is_shrunk := false, shrink_end_time := 0, last_shrink := 0, player_size := PLAYER_SIZE }

/-- Handling of the Q key (handle_abilities lines 306-311). -/
def shrink_key_down (current_time : ℤ) (s : ShrinkState) : ShrinkState :=
  if ¬s.is_shrunk ∧ current_time - s.last_shrink > SHRINK_COOLDOWN then
    { is_shrunk := true
      shrink_end_time := current_time + SHRINK_DURATION
      last_shrink := current_time
      player_size := PLAYER_SIZE / 2 }
  else s

/-- Per-tick shrink expiry (update_abilities lines 343-346). -/
def shrink_update (current_time : ℤ) (s : ShrinkState) : ShrinkState :=
  if s.is_shrunk ∧ current_time > s.shrink_end_time then
    { s with is_shrunk := false, player_size := PLAYER_SIZE }
  else s

/-! ## Score and spawn interval (GameState.update_game_logic lines 460-470)

Source:
  self.score = (current_time - self.start_time) / 1000.0
  spawn_rate = max(200, 1000 - int(self.score * 10)) -/

def score_at (current_time start_time : ℤ) : ℚ :=
  ((current_time - start_time : ℤ) : ℚ) / 1000

def spawn_rate (score : ℚ) : ℤ :=
  max 200 (1000 - py_int (score * 10))

/-! ## Player movement clamping (GameState.handle_input lines 273-280)

The four key branches run in the source order left, right, up, down; the
player coordinates are machine integers throughout (they start at integer
screen centers and are only changed by these integer max/min updates). -/

def handle_input_x (left right : Bool) (speed player_size x : ℤ) : ℤ :=
  let x1 := if left then max player_size (x - speed) else x
  if right then min (SCREEN_WIDTH - player_size) (x1 + speed) else x1

def handle_input_y (up down : Bool) (speed player_size y : ℤ) : ℤ :=
  let y1 := if up then max player_size (y - speed) else y
  if down then min (SCREEN_HEIGHT - player_size) (y1 + speed) else y1

/-! ## Shape kinds (ShapeType, lines 41-82) and spawn patterns (Pattern, lines 98-106) -/

inductive ShapeType where
  | CIRCLE | TRIANGLE | SQUARE | PENTAGON | HEXAGON | OCTAGON | STAR | DIAMOND
  | ELLIPSE | CROSS
  | ARROW | HEART | CRESCENT | SPIRAL | LIGHTNING | BOWTIE | HOURGLASS | FLOWER
  | GEAR | SNOWFLAKE
  | CUBE | PYRAMID | CYLINDER | CONE | SPHERE | TORUS | PRISM | DODECAHEDRON
  | ICOSAHEDRON | TETRAHEDRON
  | TESSERACT | HYPERSPHERE | HYPERPRISM | SIMPLEX_4D
deriving DecidableEq, Repr

inductive Pattern where
  | RANDOM | SPIRAL | WAVE | CIRCLE | ZIGZAG | CROSS | BURST | ORBIT
deriving DecidableEq, Repr

/-! ## Enemy and Particle records (Enemy dataclass lines 84-96; particle
dictionaries built in pulse_enemies lines 327-334) -/

structure Enemy where
  x : ℝ
  y : ℝ
  vx : ℝ
  vy : ℝ
  shape_type : ShapeType
  size : ℝ
  color : Color
  rotation : ℝ
  rotation_speed : ℝ
  pulse_phase : ℝ
  dimension_phase : ℝ

structure Particle where
  x : ℝ
  y : ℝ
  vx : ℝ
  vy : ℝ
  life : ℤ
  color : Color

/-! ## Pulse ability (GameState.pulse_enemies lines 313-334 and the E-key
branch of GameState.handle_abilities lines 297-303)

pulse_enemies draws, for each enemy within range, five (angle, speed)
uniform samples for the particle burst; the sample stream is passed in as
an explicit function of the particle index. -/

open Classical in
/-- Effect of pulse_enemies on one enemy: the possibly-knocked-back enemy
together with the particles spawned at it. -/
noncomputable def pulse_one (player_x player_y : ℝ) (rand : ℕ → ℝ × ℝ)
    (enemy : Enemy) : Enemy × List Particle :=
  let dx := enemy.x - player_x
  let dy := enemy.y - player_y
  let distance := Real.sqrt (dx * dx + dy * dy)
  if distance < 150 then
    let enemy' :=
      if distance > 0 then
        let force := 200 / distance
        { enemy with vx := enemy.vx + dx / distance * force
                     vy := enemy.vy + dy / distance * force }
      else enemy
    (enemy', (List.range 5).map fun i =>
      let angle := (rand i).1
      let speed := (rand i).2
      { x := enemy.x, y := enemy.y
        vx := Real.cos angle * speed, vy := Real.sin angle * speed
        life := 30, color := CYAN })
  else (enemy, [])

/-- Effect of pulse_enemies on the whole enemy list, threading one particle
sample stream per enemy; returns the updated enemies and all new particles
in source order. -/
noncomputable def pulse_enemies (player_x player_y : ℝ) (rand : ℕ → ℕ → ℝ × ℝ) :
    List Enemy → List Enemy × List Particle
  | [] => ([], [])
  | e :: es =>
    let r := pulse_one player_x player_y (rand 0) e
    let rest := pulse_enemies player_x player_y (fun k => rand (k + 1)) es
    (r.1 :: rest.1, r.2 ++ rest.2)

/-- Game state touched by the E-key pulse branch of handle_abilities. -/
structure PulseGState where
  player_x : ℝ
  player_y : ℝ
  enemies : List Enemy
  particles : List Particle
  pulse_uses : ℤ
  last_pulse : ℤ
  screen_shake : ℤ

/-- Handling of the E key (handle_abilities lines 297-303): fires the pulse
only when charges remain and the cooldown has elapsed. -/
noncomputable def handle_pulse_key (current_time : ℤ) (rand : ℕ → ℕ → ℝ × ℝ)
    (g : PulseGState) : PulseGState :=
  if g.pulse_uses > 0 ∧ current_time - g.last_pulse > PULSE_COOLDOWN then
    let r := pulse_enemies g.player_x g.player_y rand g.enemies
    { g with enemies := r.1
             particles := g.particles ++ r.2
             pulse_uses := g.pulse_uses - 1
             last_pulse := current_time
             screen_shake := 10 }
  else g

/-! ## Enemy simulation (GameState.update_enemies lines 415-432) -/

/-- Per-tick kinematics of one enemy (update_enemies loop body). -/
noncomputable def step_enemy (time_factor : ℝ) (e : Enemy) : Enemy :=
  { e with x := e.x + e.vx * time_factor
           y := e.y + e.vy * time_factor
           rotation := e.rotation + e.rotation_speed * time_factor
           pulse_phase := e.pulse_phase + 0.05 * time_factor
           dimension_phase := e.dimension_phase + 0.03 * time_factor }

/-- Removal condition checked after the move (lines 430-431). -/
def off_screen (e : Enemy) : Prop :=
  e.x < -100 ∨ e.x > (SCREEN_WIDTH : ℝ) + 100 ∨
  e.y < -100 ∨ e.y > (SCREEN_HEIGHT : ℝ) + 100

open Classical in
/-- One tick of GameState.update_enemies: every enemy moves, then the ones
outside the 100-unit margin are dropped. -/
noncomputable def update_enemies (time_factor : ℝ) : List Enemy → List Enemy
  | [] => []
  | e :: es =>
    let e' := step_enemy time_factor e
    if off_screen e' then update_enemies time_factor es
    else e' :: update_enemies time_factor es

/-! ## Collision detection (GameState.check_collisions lines 434-452) -/

/-- Collision test of one enemy against the player (loop body of
check_collisions). -/
def enemy_collides (player_x player_y player_radius : ℝ) (e : Enemy) : Prop :=
  let dx := e.x - player_x
  let dy := e.y - player_y
  let distance := Real.sqrt (dx * dx + dy * dy)
  let collision_distance := player_radius + e.size * 0.6
  distance < collision_distance

/-- Whether check_collisions ends the round: the loop returns as soon as
some enemy collides. -/
def round_over (player_x player_y player_radius : ℝ) : List Enemy → Prop
  | [] => False
  | e :: es =>
    enemy_collides player_x player_y player_radius e ∨
    round_over player_x player_y player_radius es

/-! ## Enemy spawning (GameState.spawn_enemy lines 352-382) -/

/-- Random samples consumed by the spawn-position logic of spawn_enemy:
circle_angle is the uniform(0, 2*pi) draw of the CIRCLE branch, wave_right
the choice([0, SCREEN_WIDTH]) draw of the WAVE branch, side the
randint(0, 3) draw and along the randint along the chosen edge of the
fallback branch. -/
structure SpawnRng where
  circle_angle : ℝ
  wave_right : Bool
  side : ℤ
  along : ℤ

/-- Python float modulus for nonnegative operands, as used by the SPIRAL
branch. -/
noncomputable def float_mod (a b : ℝ) : ℝ := a - b * ⌊a / b⌋

/-- Spawn position chosen by spawn_enemy as a function of the pattern, the
clock and the random samples (lines 359-382). -/
noncomputable def spawn_position (pattern : Pattern) (current_time : ℤ)
    (rng : SpawnRng) : ℝ × ℝ :=
  if pattern = Pattern.SPIRAL then
    let angle := float_mod ((current_time : ℝ) * 0.01) (2 * Real.pi)
    let radius : ℝ := 400
    (((SCREEN_WIDTH / 2 : ℤ) : ℝ) + Real.cos angle * radius,
     ((SCREEN_HEIGHT / 2 : ℤ) : ℝ) + Real.sin angle * radius)
  else if pattern = Pattern.WAVE then
    ((if rng.wave_right then (SCREEN_WIDTH : ℝ) else 0),
     ((SCREEN_HEIGHT / 2 : ℤ) : ℝ) + Real.sin ((current_time : ℝ) * 0.005) * 200)
  else if pattern = Pattern.CIRCLE then
    let angle := rng.circle_angle
    let radius : ℝ := 500
    (((SCREEN_WIDTH / 2 : ℤ) : ℝ) + Real.cos angle * radius,
     ((SCREEN_HEIGHT / 2 : ℤ) : ℝ) + Real.sin angle * radius)
  else
    if rng.side = 0 then ((rng.along : ℝ), -50)
    else if rng.side = 1 then ((SCREEN_WIDTH : ℝ) + 50, (rng.along : ℝ))
    else if rng.side = 2 then ((rng.along : ℝ), (SCREEN_HEIGHT : ℝ) + 50)
    else (-50, (rng.along : ℝ))

/-! ## Shape renderer (GameState.draw_shape lines 498-636,
draw_advanced_shapes lines 812-1224, dispatch lines 1227-1257)

A draw call to pygame becomes one Prim value; a renderer invocation
produces the list of primitives it would emit, in order. Where the source
wraps a coordinate in int() the primitive carries the truncated value;
otherwise the float is passed through. A width of 0 means a filled
primitive, matching pygame. -/

inductive Prim where
  | circle (x y radius : ℝ) (width : ℤ) (c : Color)
  | rect (x y w h : ℝ) (width : ℤ) (c : Color)
  | polygon (points : List (ℝ × ℝ)) (c : Color)
  | lines (closed : Bool) (points : List (ℝ × ℝ)) (width : ℤ) (c : Color)
  | line (x1 y1 x2 y2 : ℝ) (width : ℤ) (c : Color)
  | ellipse (x y w h : ℝ) (c : Color)

/-- Per-channel brightening: tuple(min(255, c + n) for c in color). -/
def brighten (n : ℤ) (c : Color) : Color :=
  (min 255 (c.1 + n), min 255 (c.2.1 + n), min 255 (c.2.2 + n))

/-- Per-channel darkening: tuple(max(0, c - n) for c in color). -/
def darken (n : ℤ) (c : Color) : Color :=
  (max 0 (c.1 - n), max 0 (c.2.1 - n), max 0 (c.2.2 - n))

/-- Per-channel clamp to [0, 255]: tuple(max(0, min(255, c + n)) ...). -/
def clamp_add (n : ℤ) (c : Color) : Color :=
  (max 0 (min 255 (c.1 + n)), max 0 (min 255 (c.2.1 + n)), max 0 (min 255 (c.2.2 + n)))

/-- Vertices of the regular N-gon loop shared by the triangle, pentagon,
hexagon and octagon branches. -/
noncomputable def regular_polygon_points (n : ℕ) (x y pulse_size rotation : ℝ) :
    List (ℝ × ℝ) :=
  (List.range n).map fun i =>
    let angle := rotation + (i : ℝ) * 2 * Real.pi / (n : ℝ)
    (x + Real.cos angle * pulse_size, y + Real.sin angle * pulse_size)

open Classical in
/-- Body of the original GameState.draw_shape (lines 498-636). The hidden
inputs of the Python method, the screen-shake magnitude and the two
randint(-shake, shake) jitter samples, are passed explicitly. -/
noncomputable def orig_draw_shape (shake : ℤ) (jitter : ℤ × ℤ)
    (shape_type : ShapeType) (x0 y0 size : ℝ) (c : Color)
    (rotation pulse_phase dimension_phase : ℝ) : List Prim :=
  let pulse_size := size + Real.sin pulse_phase * 3
  let shake_x : ℤ := if shake > 0 then jitter.1 else 0
  let shake_y : ℤ := if shake > 0 then jitter.2 else 0
  let x := x0 + (shake_x : ℝ)
  let y := y0 + (shake_y : ℝ)
  match shape_type with
  | .CIRCLE =>
      [.circle ((py_intf x : ℤ) : ℝ) ((py_intf y : ℤ) : ℝ) ((py_intf pulse_size : ℤ) : ℝ) 0 c]
  | .SQUARE =>
      [.rect (x - pulse_size) (y - pulse_size) (pulse_size * 2) (pulse_size * 2) 0 c]
  | .TRIANGLE =>
      [.polygon (regular_polygon_points 3 x y pulse_size rotation) c]
  | .PENTAGON =>
      [.polygon (regular_polygon_points 5 x y pulse_size rotation) c]
  | .HEXAGON =>
      [.polygon (regular_polygon_points 6 x y pulse_size rotation) c]
  | .STAR =>
      [.polygon ((List.range 10).map fun i =>
        let angle := rotation + (i : ℝ) * 2 * Real.pi / 10
        let radius := if i % 2 = 0 then pulse_size else pulse_size * 0.5
        (x + Real.cos angle * radius, y + Real.sin angle * radius)) c]
  | .DIAMOND =>
      [.polygon [(x, y - pulse_size), (x + pulse_size, y),
                 (x, y + pulse_size), (x - pulse_size, y)] c]
  | .CROSS =>
      let thickness := pulse_size * 0.3
      [.rect (x - thickness) (y - pulse_size) (thickness * 2) (pulse_size * 2) 0 c,
       .rect (x - pulse_size) (y - thickness) (pulse_size * 2) (thickness * 2) 0 c]
  | .CUBE =>
      let depth := pulse_size * 0.3
      [.rect (x - pulse_size) (y - pulse_size) (pulse_size * 2) (pulse_size * 2) 0 c,
       .polygon [(x - pulse_size, y - pulse_size),
                 (x - pulse_size + depth, y - pulse_size - depth),
                 (x + pulse_size + depth, y - pulse_size - depth),
                 (x + pulse_size, y - pulse_size)] (brighten 30 c),
       .polygon [(x + pulse_size, y - pulse_size),
                 (x + pulse_size + depth, y - pulse_size - depth),
                 (x + pulse_size + depth, y + pulse_size - depth),
                 (x + pulse_size, y + pulse_size)] (darken 30 c)]
  | .SPIRAL =>
      let points := ((List.range 20).filter fun i =>
          decide (((i : ℝ) * 0.3) * 3 ≤ pulse_size)).map fun i =>
        let t := (i : ℝ) * 0.3
        let r := t * 3
        let angle := rotation + t
        (x + Real.cos angle * r, y + Real.sin angle * r)
      if points.length > 1 then [.lines false points 3 c] else []
  | .TESSERACT =>
      let scale := pulse_size * 0.7
      let w := Real.sin dimension_phase * 0.5 + 0.5
      let inner_scale := scale * (0.5 + w * 0.3)
      let outer_scale := scale * (0.8 + w * 0.2)
      [.rect (x - inner_scale) (y - inner_scale) (inner_scale * 2) (inner_scale * 2) 0
         (darken 50 c),
       .rect (x - outer_scale) (y - outer_scale) (outer_scale * 2) (outer_scale * 2) 2 c] ++
      ((List.range 4).map fun i =>
        let angle := (i : ℝ) * Real.pi / 2
        Prim.line (x + Real.cos angle * inner_scale) (y + Real.sin angle * inner_scale)
          (x + Real.cos angle * outer_scale) (y + Real.sin angle * outer_scale) 1 c)
  | _ =>
      [.circle ((py_intf x : ℤ) : ℝ) ((py_intf y : ℤ) : ℝ) ((py_intf pulse_size : ℤ) : ℝ) 0 c]

open Classical in
/-- Body of draw_advanced_shapes (lines 812-1224). Shares the pulse-size
and shake preamble with the original method; a kind outside its if/elif
chain draws nothing. -/
noncomputable def draw_advanced_shapes (shake : ℤ) (jitter : ℤ × ℤ)
    (shape_type : ShapeType) (x0 y0 size : ℝ) (c : Color)
    (rotation pulse_phase dimension_phase : ℝ) : List Prim :=
  let pulse_size := size + Real.sin pulse_phase * 3
  let shake_x : ℤ := if shake > 0 then jitter.1 else 0
  let shake_y : ℤ := if shake > 0 then jitter.2 else 0
  let x := x0 + (shake_x : ℝ)
  let y := y0 + (shake_y : ℝ)
  match shape_type with
  | .OCTAGON =>
      [.polygon (regular_polygon_points 8 x y pulse_size rotation) c]
  | .ELLIPSE =>
      let width := pulse_size * 1.5
      let height := pulse_size * 0.8
      [.ellipse (x - width) (y - height) (width * 2) (height * 2) c]
  | .ARROW =>
      let tip_x := x + Real.cos rotation * pulse_size
      let tip_y := y + Real.sin rotation * pulse_size
      let back_x := x - Real.cos rotation * pulse_size * 0.5
      let back_y := y - Real.sin rotation * pulse_size * 0.5
      let wing1_x := back_x + Real.cos (rotation + Real.pi / 2) * pulse_size * 0.3
      let wing1_y := back_y + Real.sin (rotation + Real.pi / 2) * pulse_size * 0.3
      let wing2_x := back_x - Real.cos (rotation + Real.pi / 2) * pulse_size * 0.3
      let wing2_y := back_y - Real.sin (rotation + Real.pi / 2) * pulse_size * 0.3
      [.polygon [(tip_x, tip_y), (wing1_x, wing1_y), (back_x, back_y), (wing2_x, wing2_y)] c]
  | .HEART =>
      let points := (List.range 20).map fun i =>
        let t := (i : ℝ) * 2 * Real.pi / 20
        let heart_x := 16 * Real.sin t ^ 3
        let heart_y := -(13 * Real.cos t - 5 * Real.cos (2 * t) -
          2 * Real.cos (3 * t) - Real.cos (4 * t))
        let cos_r := Real.cos rotation
        let sin_r := Real.sin rotation
        let scale := pulse_size / 20
        (x + (heart_x * cos_r - heart_y * sin_r) * scale,
         y + (heart_x * sin_r + heart_y * cos_r) * scale)
      if points.length > 2 then [.polygon points c] else []
  | .CRESCENT =>
      let offset_x := x + Real.cos rotation * pulse_size * 0.3
      let offset_y := y + Real.sin rotation * pulse_size * 0.3
      [.circle ((py_intf x : ℤ) : ℝ) ((py_intf y : ℤ) : ℝ) ((py_intf pulse_size : ℤ) : ℝ) 0 c,
       .circle ((py_intf offset_x : ℤ) : ℝ) ((py_intf offset_y : ℤ) : ℝ)
         ((py_intf (pulse_size * 0.8) : ℤ) : ℝ) 0 BLACK]
  | .LIGHTNING =>
      let segments : ℕ := 6
      let points := (List.range (segments + 1)).map fun i =>
        let t := (i : ℝ) / (segments : ℝ)
        let base_x := x + (t - 0.5) * pulse_size * 2
        let base_y := y + (t - 0.5) * pulse_size * 0.3
        if i % 2 = 1 then
          (base_x + pulse_size * 0.3 * Real.sin rotation,
           base_y + pulse_size * 0.3 * Real.cos rotation)
        else (base_x, base_y)
      if points.length > 1 then [.lines false points 4 c] else []
  | .BOWTIE =>
      [.polygon [(x - pulse_size, y - pulse_size * 0.5), (x, y),
                 (x - pulse_size, y + pulse_size * 0.5),
                 (x + pulse_size, y + pulse_size * 0.5), (x, y),
                 (x + pulse_size, y - pulse_size * 0.5)] c]
  | .HOURGLASS =>
      [.polygon [(x - pulse_size, y - pulse_size), (x + pulse_size, y - pulse_size), (x, y)] c,
       .polygon [(x, y), (x - pulse_size, y + pulse_size), (x + pulse_size, y + pulse_size)] c]
  | .FLOWER =>
      let petals : ℕ := 6
      ((List.range petals).map fun i =>
        let angle := rotation + (i : ℝ) * 2 * Real.pi / (petals : ℝ)
        let petal_x := x + Real.cos angle * pulse_size * 0.7
        let petal_y := y + Real.sin angle * pulse_size * 0.7
        Prim.circle ((py_intf petal_x : ℤ) : ℝ) ((py_intf petal_y : ℤ) : ℝ)
          ((py_intf (pulse_size * 0.4) : ℤ) : ℝ) 0 c) ++
      [.circle ((py_intf x : ℤ) : ℝ) ((py_intf y : ℤ) : ℝ)
        ((py_intf (pulse_size * 0.3) : ℤ) : ℝ) 0 (brighten 50 c)]
  | .GEAR =>
      let teeth : ℕ := 8
      let inner_radius := pulse_size * 0.6
      let outer_radius := pulse_size
      let points := (List.range (teeth * 2)).map fun i =>
        let angle := rotation + (i : ℝ) * 2 * Real.pi / ((teeth * 2 : ℕ) : ℝ)
        let radius := if i % 2 = 0 then outer_radius else inner_radius
        (x + Real.cos angle * radius, y + Real.sin angle * radius)
      [.polygon points c,
       .circle ((py_intf x : ℤ) : ℝ) ((py_intf y : ℤ) : ℝ)
         ((py_intf (pulse_size * 0.2) : ℤ) : ℝ) 0 BLACK]
  | .SNOWFLAKE =>
      (List.range 6).flatMap fun i =>
        let angle := rotation + (i : ℝ) * Real.pi / 3
        let end_x := x + Real.cos angle * pulse_size
        let end_y := y + Real.sin angle * pulse_size
        Prim.line x y end_x end_y 2 c ::
        (([0.3, 0.6] : List ℝ).flatMap fun j =>
          let branch_x := x + Real.cos angle * pulse_size * j
          let branch_y := y + Real.sin angle * pulse_size * j
          ([-1, 1] : List ℝ).map fun k =>
            let branch_angle := angle + k * Real.pi / 6
            let branch_end_x := branch_x + Real.cos branch_angle * pulse_size * 0.2
            let branch_end_y := branch_y + Real.sin branch_angle * pulse_size * 0.2
            Prim.line branch_x branch_y branch_end_x branch_end_y 1 c)
  | .PYRAMID =>
      let base_size := pulse_size
      let height := pulse_size * 1.2
      let apex := (x, y - height * 0.5)
      [.polygon [(x - base_size, y + base_size * 0.5), (x + base_size, y + base_size * 0.5),
                 (x + base_size * 0.5, y + base_size), (x - base_size * 0.5, y + base_size)]
         (darken 40 c),
       .polygon [(x - base_size, y + base_size * 0.5), (x + base_size, y + base_size * 0.5),
                 apex] c,
       .polygon [(x + base_size, y + base_size * 0.5), (x + base_size * 0.5, y + base_size),
                 apex] (darken 20 c)]
  | .CYLINDER =>
      let width := pulse_size * 1.2
      let height := pulse_size * 0.8
      let depth := pulse_size * 0.3
      [.ellipse (x - width) (y - height) (width * 2) (height * 2) c,
       .ellipse (x - width + depth) (y - height - depth) (width * 2) (height * 2)
         (brighten 30 c),
       .rect (x - width) (y - height) (width * 2) (height * 2) 0 (darken 20 c)]
  | .CONE =>
      let base_radius := pulse_size
      let height := pulse_size * 1.5
      let apex := (x, y - height * 0.7)
      let cone_points := (List.range 16).flatMap fun i =>
        let angle := (i : ℝ) * 2 * Real.pi / 16
        let base_x := x + Real.cos angle * base_radius
        let base_y := y + height * 0.3 + Real.sin angle * base_radius * 0.3
        [apex, (base_x, base_y)]
      Prim.circle ((py_intf x : ℤ) : ℝ) ((py_intf (y + height * 0.3) : ℤ) : ℝ)
        ((py_intf base_radius : ℤ) : ℝ) 0 (darken 40 c) ::
      -- range(0, len - 2, 2) with the i + 3 < len guard visits i = 2k for k < 15
      ((List.range 15).map fun k =>
        let i := 2 * k
        Prim.polygon [cone_points.getD i (0, 0), cone_points.getD (i + 1) (0, 0),
          cone_points.getD (i + 3) (0, 0)] c)
  | .SPHERE =>
      let highlight_x := x - pulse_size * 0.3
      let highlight_y := y - pulse_size * 0.3
      let shadow_x := x + pulse_size * 0.2
      let shadow_y := y + pulse_size * 0.2
      [.circle ((py_intf x : ℤ) : ℝ) ((py_intf y : ℤ) : ℝ) ((py_intf pulse_size : ℤ) : ℝ) 0 c,
       .circle ((py_intf highlight_x : ℤ) : ℝ) ((py_intf highlight_y : ℤ) : ℝ)
         ((py_intf (pulse_size * 0.3) : ℤ) : ℝ) 0 (brighten 80 c),
       .circle ((py_intf shadow_x : ℤ) : ℝ) ((py_intf shadow_y : ℤ) : ℝ)
         ((py_intf (pulse_size * 0.4) : ℤ) : ℝ) 0 (darken 60 c)]
  | .TORUS =>
      let outer_radius := pulse_size
      let inner_radius := pulse_size * 0.4
      let depth_offset := pulse_size * 0.2
      [.circle ((py_intf x : ℤ) : ℝ) ((py_intf y : ℤ) : ℝ) ((py_intf outer_radius : ℤ) : ℝ) 0 c,
       .circle ((py_intf x : ℤ) : ℝ) ((py_intf y : ℤ) : ℝ) ((py_intf inner_radius : ℤ) : ℝ) 0 BLACK,
       .ellipse (x - outer_radius) (y - outer_radius - depth_offset)
         (outer_radius * 2) inner_radius (brighten 30 c)]
  | .PRISM =>
      let base_size := pulse_size
      let depth := pulse_size * 0.4
      let front_points : List (ℝ × ℝ) :=
        [(x, y - base_size), (x - base_size, y + base_size * 0.5),
         (x + base_size, y + base_size * 0.5)]
      let back_points : List (ℝ × ℝ) :=
        [(x + depth, y - base_size - depth),
         (x - base_size + depth, y + base_size * 0.5 - depth),
         (x + base_size + depth, y + base_size * 0.5 - depth)]
      [.polygon front_points c, .polygon back_points (brighten 20 c)] ++
      ((List.range 3).map fun i =>
        let p := front_points.getD i (0, 0)
        let q := back_points.getD i (0, 0)
        Prim.line p.1 p.2 q.1 q.2 2 (darken 30 c))
  | .DODECAHEDRON =>
      let points := (List.range 12).map fun i =>
        let angle := rotation + (i : ℝ) * 2 * Real.pi / 12
        let radius := pulse_size * (0.8 + 0.2 * Real.sin ((i : ℝ) * 3))
        (x + Real.cos angle * radius, y + Real.sin angle * radius)
      let inner_points := (List.range 6).map fun i =>
        let angle := rotation + (i : ℝ) * 2 * Real.pi / 6
        (x + Real.cos angle * pulse_size * 0.4, y + Real.sin angle * pulse_size * 0.4)
      [.polygon points c, .polygon inner_points (brighten 40 c)]
  | .ICOSAHEDRON =>
      let layers : ℕ := 3
      let points := (List.range layers).flatMap fun layer =>
        let layer_radius := pulse_size * (1 - (layer : ℝ) * 0.2)
        let points_in_layer : ℕ := 6 + layer * 2
        (List.range points_in_layer).map fun i =>
          let angle := rotation + (i : ℝ) * 2 * Real.pi / ((points_in_layer : ℕ) : ℝ) +
            (layer : ℝ) * 0.5
          (x + Real.cos angle * layer_radius, y + Real.sin angle * layer_radius * 0.8)
      if points.length > 2 then [.polygon points c] else []
  | .TETRAHEDRON =>
      let base_size := pulse_size * 0.8
      let height := pulse_size
      let base_points : List (ℝ × ℝ) :=
        [(x - base_size, y + base_size * 0.5), (x + base_size, y + base_size * 0.5),
         (x, y - base_size * 0.5)]
      let apex := (x, y - height * 0.8)
      Prim.polygon base_points (darken 30 c) ::
      ((List.range 3).map fun i =>
        Prim.polygon [base_points.getD i (0, 0), base_points.getD ((i + 1) % 3) (0, 0), apex]
          (darken (10 * (i : ℤ)) c))
  | .HYPERSPHERE =>
      let w := Real.sin dimension_phase * 0.5 + 0.5
      (List.range 4).flatMap fun i =>
        let layer_w := ((i : ℝ) / 3) * 2 - 1
        if |layer_w| ≤ 1 then
          let radius := pulse_size * Real.sqrt (1 - layer_w ^ 2) * (0.3 + w * 0.7)
          if radius > 1 then
            [Prim.circle ((py_intf x : ℤ) : ℝ) ((py_intf y : ℤ) : ℝ)
              ((py_intf radius : ℤ) : ℝ) 2 c]
          else []
        else []
  | .HYPERPRISM =>
      let w1 := Real.sin dimension_phase * 0.3
      let w2 := Real.cos dimension_phase * 0.3
      (List.range 3).map fun (i : ℕ) =>
        let layer_w := ((i : ℝ) - 1) * 0.5
        let offset_x := layer_w * w1 * pulse_size
        let offset_y := layer_w * w2 * pulse_size
        let rect_size := pulse_size * (0.6 + 0.4 * (2 - (i : ℝ)))
        Prim.rect (x + offset_x - rect_size) (y + offset_y - rect_size)
          (rect_size * 2) (rect_size * 2) 2 (clamp_add ((i : ℤ) * 20) c)
  | .SIMPLEX_4D =>
      let w := dimension_phase
      let vertices_4d : List (ℝ × ℝ × ℝ × ℝ) :=
        [(1, 1, 1, 1), (1, -1, -1, 1), (-1, 1, -1, 1), (-1, -1, 1, 1), (0, 0, 0, -4)]
      let projected := vertices_4d.map fun v =>
        let scale := pulse_size * 0.3
        (x + (v.1 + v.2.2.2 * Real.cos w) * scale,
         y + (v.2.1 + v.2.2.2 * Real.sin w) * scale)
      (List.range projected.length).flatMap fun i =>
        ((List.range projected.length).filter fun j => decide (i < j)).map fun j =>
          let p := projected.getD i (0, 0)
          let q := projected.getD j (0, 0)
          Prim.line ((py_intf p.1 : ℤ) : ℝ) ((py_intf p.2 : ℤ) : ℝ)
            ((py_intf q.1 : ℤ) : ℝ) ((py_intf q.2 : ℤ) : ℝ) 1 c
  | _ => []

/-- Shape kinds routed to draw_advanced_shapes by the monkey-patched
dispatcher (extend_draw_shape_method, lines 1227-1257). -/
def advanced_shapes : List ShapeType :=
  [.OCTAGON, .ELLIPSE, .ARROW, .HEART, .CRESCENT, .LIGHTNING, .BOWTIE, .HOURGLASS,
   .FLOWER, .GEAR, .SNOWFLAKE, .PYRAMID, .CYLINDER, .CONE, .SPHERE, .TORUS,
   .PRISM, .DODECAHEDRON, .ICOSAHEDRON, .TETRAHEDRON, .HYPERSPHERE, .HYPERPRISM,
   .SIMPLEX_4D]

/-- The shape renderer as it runs in the game after extend_draw_shape_method
has been applied: advanced kinds go to draw_advanced_shapes, the rest to
the original method. -/
noncomputable def draw_shape (shake : ℤ) (jitter : ℤ × ℤ) (shape_type : ShapeType)
    (x y size : ℝ) (c : Color) (rotation pulse_phase dimension_phase : ℝ) : List Prim :=
  if shape_type ∈ advanced_shapes then
    draw_advanced_shapes shake jitter shape_type x y size c rotation pulse_phase
      dimension_phase
  else
    orig_draw_shape shake jitter shape_type x y size c rotation pulse_phase
      dimension_phase

/-! ## Concrete inputs used by the witnesses below -/

/-- Enemy whose center sits exactly on the collision threshold of a
radius-12 player at the origin: distance 36 = 12 + 0.6 x 40. -/
def enemy_at_threshold : Enemy :=
  { x := 36, y := 0, vx := 0, vy := 0, shape_type := .CIRCLE, size := 40, color := WHITE,
    rotation := 0, rotation_speed := 0, pulse_phase := 0, dimension_phase := 0 }

/-- Enemy strictly inside that threshold (distance 35 < 36). -/
def enemy_inside_threshold : Enemy :=
  { enemy_at_threshold with x := 35 }

/-- Enemy located exactly at the player position used by the pulse witness. -/
def enemy_on_player : Enemy :=
  { x := 100, y := 200, vx := 1, vy := 2, shape_type := .SQUARE, size := 20, color := WHITE,
    rotation := 0, rotation_speed := 0, pulse_phase := 0, dimension_phase := 0 }

/-- Game state with an enemy present but zero pulse charges. -/
def pulse_gstate_empty_charges : PulseGState :=
  { player_x := 600, player_y := 400, enemies := [enemy_on_player], particles := [],
    pulse_uses := 0, last_pulse := 0, screen_shake := 0 }

/-- Spawn samples: edge side 0 (top) with coordinate 600 along it. -/
def spawn_rng_example : SpawnRng :=
  { circle_angle := 0, wave_right := false, side := 0, along := 600 }

/-! # Theorems -/

/-- Claim C1 fails on the code: with charges at 0 and the last pulse use at
time 0, the ticks at 6001ms and 6002ms both lie in the same 6000ms window
of elapsed time since last use, yet each of them regains a charge, so two
charges are regained in one window. -/
theorem pulse_regen_two_in_one_window :
    (6001 : ℤ) - 0 > PULSE_COOLDOWN * 2 ∧ (6002 : ℤ) - 0 ≤ 2 * (PULSE_COOLDOWN * 2) ∧
    regen_pulse_uses 6002 0 (regen_pulse_uses 6001 0 0) = 2 := by
  decide

/-- Claim C1 amended: while the charge count is below 5, one charge is
regained on EVERY simulation tick whose clock is more than 6000ms
(2 x cooldown) past the last pulse use, capped at 5; on ticks at or before
that threshold nothing is regained, and the count never exceeds 5. -/
theorem pulse_regen_per_tick (current_time last_pulse pulse_uses : ℤ) :
    (pulse_uses < 5 → current_time - last_pulse > 6000 →
      regen_pulse_uses current_time last_pulse pulse_uses = pulse_uses + 1) ∧
    (current_time - last_pulse ≤ 6000 →
      regen_pulse_uses current_time last_pulse pulse_uses = pulse_uses) ∧
    regen_pulse_uses current_time last_pulse pulse_uses ≤ max 5 pulse_uses := by
  simp only [regen_pulse_uses, PULSE_COOLDOWN]
  split_ifs with h <;>
    exact ⟨fun h1 h2 => by omega, fun h3 => by omega, by omega⟩

/-- Witness for pulse_regen_per_tick at a concrete input. -/
theorem pulse_regen_per_tick_witness : regen_pulse_uses 6001 0 3 = 3 + 1 :=
  (pulse_regen_per_tick 6001 0 3).1 (by decide) (by decide)

/-- Claim C4 fails on the code: after a shrink triggered at 9000ms, the
update tick whose clock reads exactly 11000ms = trigger + 2000ms still sees
the halved size, because the revert test is strict (current_time >
shrink_end_time); the claim requires base size at that instant. -/
theorem shrink_still_half_at_end_time :
    (shrink_update 11000 (shrink_key_down 9000 init_shrink)).player_size = PLAYER_SIZE / 2 ∧
    (shrink_update 11000 (shrink_key_down 9000 init_shrink)).player_size ≠ PLAYER_SIZE := by
  decide

/-- Claim C4 amended: after a successful shrink trigger at time t, the
effective size is exactly half the base size on every update tick with
clock at most t + 2000ms (a closed interval, including t + 2000ms itself),
and exactly the base size on every update tick with clock strictly greater
than t + 2000ms. -/
theorem shrink_half_closed_interval (t now : ℤ) (s : ShrinkState)
    (h1 : s.is_shrunk = false) (h2 : t - s.last_shrink > SHRINK_COOLDOWN) :
    (now ≤ t + SHRINK_DURATION →
      (shrink_update now (shrink_key_down t s)).player_size = PLAYER_SIZE / 2) ∧
    (now > t + SHRINK_DURATION →
      (shrink_update now (shrink_key_down t s)).player_size = PLAYER_SIZE) := by
  have hk : shrink_key_down t s =
      { is_shrunk := true, shrink_end_time := t + SHRINK_DURATION, last_shrink := t,
        player_size := PLAYER_SIZE / 2 } := by
    simp [shrink_key_down, h1, h2]
  rw [hk]
  constructor
  · intro hle
    rw [shrink_update, if_neg]
    simp only [not_and]
    intro _
    omega
  · intro hgt
    rw [shrink_update, if_pos ⟨rfl, hgt⟩]

/-- Witness for shrink_half_closed_interval at a concrete input. -/
theorem shrink_half_closed_interval_witness :
    (shrink_update 9100 (shrink_key_down 9000 init_shrink)).player_size = PLAYER_SIZE / 2 :=
  (shrink_half_closed_interval 9000 9100 init_shrink rfl (by decide)).1 (by decide)

/-- Claim C5 fails on the code: 50ms into a round the fractional score is
1/20 s, the exact formula gives max(200, 1000 - 10 x 1/20) = 999.5ms, but
the code truncates with int() and gates spawning on 1000ms. -/
theorem spawn_rate_truncates :
    spawn_rate (score_at 50 0) = 1000 ∧
    ((spawn_rate (score_at 50 0) : ℤ) : ℚ) ≠ max 200 (1000 - 10 * score_at 50 0) := by
  have hscore : score_at 50 0 = 1 / 20 := by norm_num [score_at]
  have hfl : ⌊(1 / 20 : ℚ) * 10⌋ = 0 := by
    rw [Int.floor_eq_iff]
    norm_num
  have hrate : spawn_rate (score_at 50 0) = 1000 := by
    rw [hscore, spawn_rate, py_int, if_pos (by norm_num), hfl]
    norm_num
  refine ⟨hrate, ?_⟩
  rw [hrate, hscore]
  rw [max_eq_right (by norm_num : (200 : ℚ) ≤ 1000 - 10 * (1 / 20))]
  norm_num

/-- Claim C5 amended: the spawn interval equals
max(200, 1000 - int(score x 10)) where int() truncates the product toward
zero (the floor, for nonnegative scores); it therefore lies within [exact,
exact + 1) of the unrounded formula rather than equalling it. -/
theorem spawn_rate_truncated_formula (s : ℚ) (h : 0 ≤ s) :
    spawn_rate s = max 200 (1000 - ⌊s * 10⌋) ∧
    max 200 (1000 - 10 * s) ≤ ((spawn_rate s : ℤ) : ℚ) ∧
    ((spawn_rate s : ℤ) : ℚ) < max 200 (1000 - 10 * s) + 1 := by
  have h10 : (0 : ℚ) ≤ s * 10 := by positivity
  have hpy : py_int (s * 10) = ⌊s * 10⌋ := if_pos h10
  have hfl : ((⌊s * 10⌋ : ℤ) : ℚ) ≤ 10 * s := by
    rw [mul_comm]
    exact Int.floor_le _
  have hfl2 : 10 * s < ((⌊s * 10⌋ : ℤ) : ℚ) + 1 := by
    rw [mul_comm]
    exact Int.lt_floor_add_one _
  refine ⟨by rw [spawn_rate, hpy], ?_, ?_⟩
  · rw [spawn_rate, hpy]
    push_cast
    exact max_le_max le_rfl (by linarith)
  · rw [spawn_rate, hpy]
    push_cast
    rcases le_total (1000 - ((⌊s * 10⌋ : ℤ) : ℚ)) 200 with h' | h'
    · rw [max_eq_left h']
      have := le_max_left (200 : ℚ) (1000 - 10 * s)
      linarith
    · rw [max_eq_right h']
      have := le_max_right (200 : ℚ) (1000 - 10 * s)
      linarith

/-- Witness for spawn_rate_truncated_formula at a concrete input. -/
theorem spawn_rate_truncated_formula_witness :
    spawn_rate (1 / 2) = max 200 (1000 - ⌊(1 / 2 : ℚ) * 10⌋) :=
  (spawn_rate_truncated_formula (1 / 2) (by norm_num)).1

/-- Claim C9 fails on the code: with effective size 12 the coordinate
x = 1194 is reachable (move to 1194 while shrunk to size 6, then let the
shrink expire); on the next tick holding only LEFT yields 1189, which is
outside [12, 1200 - 12], because each key branch clamps only its own edge. -/
theorem player_clamp_violation_after_shrink :
    handle_input_x true false PLAYER_SPEED PLAYER_SIZE 1194 = 1189 ∧
    ¬(handle_input_x true false PLAYER_SPEED PLAYER_SIZE 1194 ≤ SCREEN_WIDTH - PLAYER_SIZE) := by
  decide

/-- Claim C9 amended: provided the coordinate already lies within
[playerSize, screenDimension - playerSize] before input handling (and the
size fits the screen, speed nonnegative), it still lies in that interval
after the movement branches run, whatever combination of keys is held. -/
theorem player_clamp_invariant (left right up down : Bool) (speed player_size x y : ℤ)
    (hs : 0 ≤ speed) (hx1 : player_size ≤ x) (hx2 : x ≤ SCREEN_WIDTH - player_size)
    (hy1 : player_size ≤ y) (hy2 : y ≤ SCREEN_HEIGHT - player_size)
    (hdim : 2 * player_size ≤ SCREEN_HEIGHT) :
    (player_size ≤ handle_input_x left right speed player_size x ∧
     handle_input_x left right speed player_size x ≤ SCREEN_WIDTH - player_size) ∧
    (player_size ≤ handle_input_y up down speed player_size y ∧
     handle_input_y up down speed player_size y ≤ SCREEN_HEIGHT - player_size) := by
  simp only [handle_input_x, handle_input_y, SCREEN_WIDTH, SCREEN_HEIGHT] at *
  cases left <;> cases right <;> cases up <;> cases down <;>
    simp only [if_true, if_false, Bool.false_eq_true, ite_true, ite_false] <;> omega

/-- Witness for player_clamp_invariant at a concrete input. -/
theorem player_clamp_invariant_witness :
    PLAYER_SIZE ≤ handle_input_x true false PLAYER_SPEED PLAYER_SIZE 600 ∧
    handle_input_x true false PLAYER_SPEED PLAYER_SIZE 600 ≤ SCREEN_WIDTH - PLAYER_SIZE :=
  (player_clamp_invariant true false true false PLAYER_SPEED PLAYER_SIZE 600 400
    (by decide) (by decide) (by decide) (by decide) (by decide) (by decide)).1

/-- Kinematics and velocity of an enemy are preserved across iterated ticks
at time factor 1 (helper for the linear-motion theorem). -/
lemma step_enemy_iterate (e : Enemy) (N : ℕ) :
    ((step_enemy 1)^[N] e).x = e.x + (N : ℝ) * e.vx ∧
    ((step_enemy 1)^[N] e).y = e.y + (N : ℝ) * e.vy ∧
    ((step_enemy 1)^[N] e).vx = e.vx ∧ ((step_enemy 1)^[N] e).vy = e.vy := by
  induction N with
  | zero => simp
  | succ n ih =>
    obtain ⟨hx, hy, hvx, hvy⟩ := ih
    rw [Function.iterate_succ_apply']
    refine ⟨?_, ?_, by simp [step_enemy, hvx], by simp [step_enemy, hvy]⟩ <;>
      · simp [step_enemy, hx, hy, hvx, hvy]
        ring

/-- Membership characterization of one update_enemies pass (helper). -/
lemma mem_update_enemies (time_factor : ℝ) (es : List Enemy) (a : Enemy) :
    a ∈ update_enemies time_factor es ↔
      a ∈ es.map (step_enemy time_factor) ∧ ¬ off_screen a := by
  induction es with
  | nil => simp [update_enemies]
  | cons e es ih =>
    simp only [update_enemies, List.map_cons, List.mem_cons]
    by_cases h : off_screen (step_enemy time_factor e)
    · rw [if_pos h, ih]
      constructor
      · rintro ⟨hm, hoff⟩
        exact ⟨Or.inr hm, hoff⟩
      · rintro ⟨rfl | hm, hoff⟩
        · exact absurd h hoff
        · exact ⟨hm, hoff⟩
    · rw [if_neg h]
      simp only [List.mem_cons, ih]
      constructor
      · rintro (rfl | ⟨hm, hoff⟩)
        · exact ⟨Or.inl rfl, h⟩
        · exact ⟨Or.inr hm, hoff⟩
      · rintro ⟨rfl | hm, hoff⟩
        · exact Or.inl rfl
        · exact Or.inr ⟨hm, hoff⟩

/-- Claim C8 confirmed: an enemy stepped N times at time factor 1 (and not
pulsed, so its velocity is untouched) ends at initial position plus
N x velocity, and an update pass keeps exactly the moved enemies that are
not beyond the 100-unit margin around the screen (off_screen). -/
theorem enemy_linear_motion_and_removal (e : Enemy) (N : ℕ) (time_factor : ℝ)
    (es : List Enemy) (a : Enemy) :
    ((step_enemy 1)^[N] e).x = e.x + (N : ℝ) * e.vx ∧
    ((step_enemy 1)^[N] e).y = e.y + (N : ℝ) * e.vy ∧
    (a ∈ update_enemies time_factor es ↔
      a ∈ es.map (step_enemy time_factor) ∧ ¬ off_screen a) :=
  ⟨(step_enemy_iterate e N).1, (step_enemy_iterate e N).2.1,
    mem_update_enemies time_factor es a⟩

/-- Claim C6 confirmed: check_collisions ends the round exactly when some
enemy has Euclidean distance to the player center strictly less than
playerRadius + 0.6 x enemySize, and at distance exactly equal to the
threshold no collision is registered. -/
theorem collision_strict_threshold (player_x player_y player_radius : ℝ)
    (es : List Enemy) :
    (round_over player_x player_y player_radius es ↔
      ∃ e ∈ es, Real.sqrt ((e.x - player_x) * (e.x - player_x) +
        (e.y - player_y) * (e.y - player_y)) < player_radius + e.size * 0.6) ∧
    (∀ e : Enemy, Real.sqrt ((e.x - player_x) * (e.x - player_x) +
        (e.y - player_y) * (e.y - player_y)) = player_radius + e.size * 0.6 →
      ¬ enemy_collides player_x player_y player_radius e) := by
  constructor
  · induction es with
    | nil => simp [round_over]
    | cons e es ih => simp [round_over, enemy_collides, ih]
  · intro e he
    simp only [enemy_collides]
    rw [he]
    exact lt_irrefl _

/-- Witness for collision_strict_threshold: at distance exactly 36 (the
threshold for size 40 and radius 12) no collision; at distance 35 the
round ends. -/
theorem collision_strict_threshold_witness :
    ¬ enemy_collides 0 0 12 enemy_at_threshold ∧
    round_over 0 0 12 [enemy_inside_threshold] := by
  have h36 : Real.sqrt ((enemy_at_threshold.x - 0) * (enemy_at_threshold.x - 0) +
      (enemy_at_threshold.y - 0) * (enemy_at_threshold.y - 0)) =
      12 + enemy_at_threshold.size * 0.6 := by
    show Real.sqrt (((36 : ℝ) - 0) * ((36 : ℝ) - 0) + ((0 : ℝ) - 0) * ((0 : ℝ) - 0)) =
      12 + (40 : ℝ) * 0.6
    rw [show ((36 : ℝ) - 0) * ((36 : ℝ) - 0) + ((0 : ℝ) - 0) * ((0 : ℝ) - 0) = 36 ^ 2 by
      norm_num]
    rw [Real.sqrt_sq (by norm_num : (0 : ℝ) ≤ 36)]
    norm_num
  refine ⟨(collision_strict_threshold 0 0 12 []).2 enemy_at_threshold h36, ?_⟩
  apply (collision_strict_threshold 0 0 12 [enemy_inside_threshold]).1.mpr
  refine ⟨enemy_inside_threshold, List.mem_singleton.mpr rfl, ?_⟩
  show Real.sqrt (((35 : ℝ) - 0) * ((35 : ℝ) - 0) + ((0 : ℝ) - 0) * ((0 : ℝ) - 0)) <
    12 + (40 : ℝ) * 0.6
  rw [show ((35 : ℝ) - 0) * ((35 : ℝ) - 0) + ((0 : ℝ) - 0) * ((0 : ℝ) - 0) = 35 ^ 2 by
    norm_num]
  rw [Real.sqrt_sq (by norm_num : (0 : ℝ) ≤ 35)]
  norm_num

/-- Claim C10 confirmed: when an enemy sits exactly at the player position,
pulse_enemies leaves it unchanged (the distance > 0 guard skips the
division) yet still spawns 5 particles at its position, since distance 0 is
within the 150-unit range. -/
theorem pulse_zero_distance_guarded (player_x player_y : ℝ) (rand : ℕ → ℝ × ℝ)
    (e : Enemy) (hx : e.x = player_x) (hy : e.y = player_y) :
    (pulse_one player_x player_y rand e).1 = e ∧
    (pulse_one player_x player_y rand e).2.length = 5 ∧
    ∀ p ∈ (pulse_one player_x player_y rand e).2,
      p.x = e.x ∧ p.y = e.y ∧ p.life = 30 ∧ p.color = CYAN := by
  subst hx
  subst hy
  simp only [pulse_one, sub_self, mul_zero, add_zero, Real.sqrt_zero]
  rw [if_pos (show (0 : ℝ) < 150 by norm_num)]
  rw [if_neg (show ¬((0 : ℝ) > 0) by norm_num)]
  refine ⟨rfl, by simp, ?_⟩
  intro p hp
  simp only [List.mem_map, List.mem_range] at hp
  obtain ⟨i, _, rfl⟩ := hp
  exact ⟨rfl, rfl, rfl, rfl⟩

/-- Witness for pulse_zero_distance_guarded at a concrete enemy and sample
stream. -/
theorem pulse_zero_distance_guarded_witness :
    (pulse_one 100 200 (fun _ => (0, 2)) enemy_on_player).1 = enemy_on_player ∧
    (pulse_one 100 200 (fun _ => (0, 2)) enemy_on_player).2.length = 5 :=
  ⟨(pulse_zero_distance_guarded 100 200 (fun _ => (0, 2)) enemy_on_player rfl rfl).1,
   (pulse_zero_distance_guarded 100 200 (fun _ => (0, 2)) enemy_on_player rfl rfl).2.1⟩

/-- Claim C7 confirmed: pressing E with zero pulse charges changes nothing,
for any game state: enemies, particles, cooldown timestamp, charge count
and screen shake are all left exactly as they were. -/
theorem pulse_zero_charges_noop (current_time : ℤ) (rand : ℕ → ℕ → ℝ × ℝ)
    (g : PulseGState) (h : g.pulse_uses = 0) :
    handle_pulse_key current_time rand g = g := by
  simp only [handle_pulse_key]
  rw [if_neg]
  rintro ⟨h1, -⟩
  omega

/-- Witness for pulse_zero_charges_noop at a concrete state. -/
theorem pulse_zero_charges_noop_witness :
    handle_pulse_key 9999 (fun _ _ => (0, 2)) pulse_gstate_empty_charges =
      pulse_gstate_empty_charges :=
  pulse_zero_charges_noop 9999 (fun _ _ => (0, 2)) pulse_gstate_empty_charges rfl

/-- Claim C2 fails on the code: under the ORBIT pattern with edge samples
side 0, along 600, the enemy spawns at (600, -50), a point of the
edge-random rule that is NOT on the radius-500 ring around the screen
center (600, 400). -/
theorem orbit_spawn_edge_not_ring :
    spawn_position Pattern.ORBIT 0 spawn_rng_example = (600, -50) ∧
    ((600 : ℝ) - 600) ^ 2 + ((-50 : ℝ) - 400) ^ 2 ≠ 500 ^ 2 := by
  constructor
  · unfold spawn_position
    rw [if_neg (by decide : ¬(Pattern.ORBIT = Pattern.SPIRAL)),
      if_neg (by decide : ¬(Pattern.ORBIT = Pattern.WAVE)),
      if_neg (by decide : ¬(Pattern.ORBIT = Pattern.CIRCLE)),
      if_pos (show spawn_rng_example.side = 0 from rfl)]
    show ((((600 : ℤ) : ℝ)), (-50 : ℝ)) = ((600 : ℝ), (-50 : ℝ))
    norm_num
  · norm_num

/-- Claim C2 amended: ORBIT is not one of the specially-placed patterns;
it spawns by the same edge-random rule as RANDOM (only SPIRAL, WAVE and
CIRCLE have dedicated placement), while CIRCLE alone places the enemy on
the radius-500 ring around the screen center. -/
theorem orbit_uses_edge_rule_circle_on_ring (current_time : ℤ) (rng : SpawnRng) :
    spawn_position Pattern.ORBIT current_time rng =
      spawn_position Pattern.RANDOM current_time rng ∧
    ((spawn_position Pattern.CIRCLE current_time rng).1 - ((SCREEN_WIDTH / 2 : ℤ) : ℝ)) ^ 2 +
      ((spawn_position Pattern.CIRCLE current_time rng).2 - ((SCREEN_HEIGHT / 2 : ℤ) : ℝ)) ^ 2 =
      500 ^ 2 := by
  constructor
  · unfold spawn_position
    rw [if_neg (by decide : ¬(Pattern.ORBIT = Pattern.SPIRAL)),
      if_neg (by decide : ¬(Pattern.ORBIT = Pattern.WAVE)),
      if_neg (by decide : ¬(Pattern.ORBIT = Pattern.CIRCLE)),
      if_neg (by decide : ¬(Pattern.RANDOM = Pattern.SPIRAL)),
      if_neg (by decide : ¬(Pattern.RANDOM = Pattern.WAVE)),
      if_neg (by decide : ¬(Pattern.RANDOM = Pattern.CIRCLE))]
  · unfold spawn_position
    rw [if_neg (by decide : ¬(Pattern.CIRCLE = Pattern.SPIRAL)),
      if_neg (by decide : ¬(Pattern.CIRCLE = Pattern.WAVE)),
      if_pos (rfl : Pattern.CIRCLE = Pattern.CIRCLE)]
    have hsc := Real.sin_sq_add_cos_sq rng.circle_angle
    ring_nf
    nlinarith [hsc]

/-- Claim C3 fails on the code: with screen shake 5 active (a value any dash
sets) and two admissible jitter samples, draw_shape invoked twice with
identical arguments emits different primitive lists, so the renderer is not
independent of hidden state. -/
theorem draw_shape_shake_nondeterministic :
    (0 : ℤ) < 5 ∧ (-5 : ℤ) ≤ 5 ∧ (5 : ℤ) ≤ 5 ∧
    draw_shape 5 (5, 5) ShapeType.DIAMOND 100 100 10 WHITE 0 0 0 ≠
      draw_shape 5 (-5, -5) ShapeType.DIAMOND 100 100 10 WHITE 0 0 0 := by
  refine ⟨by decide, by decide, by decide, ?_⟩
  have hmem : ShapeType.DIAMOND ∉ advanced_shapes := by decide
  unfold draw_shape
  rw [if_neg hmem, if_neg hmem]
  unfold orig_draw_shape
  simp only [Real.sin_zero]
  intro hcontra
  simp only [if_pos (show (5 : ℤ) > 0 by decide), List.cons.injEq, Prim.polygon.injEq,
    Prod.mk.injEq, and_true] at hcontra
  have h1 := hcontra.1.1
  norm_num at h1

/-- Claim C3 amended: the shape renderer is a deterministic function of its
arguments only when the screen-shake magnitude is zero; in that case the
jitter samples are ignored and two invocations with identical arguments
emit identical primitive lists, for every shape kind. -/
theorem draw_shape_deterministic_no_shake (jitter1 jitter2 : ℤ × ℤ)
    (shape_type : ShapeType) (x y size : ℝ) (c : Color)
    (rotation pulse_phase dimension_phase : ℝ) :
    draw_shape 0 jitter1 shape_type x y size c rotation pulse_phase dimension_phase =
      draw_shape 0 jitter2 shape_type x y size c rotation pulse_phase dimension_phase := by
  unfold draw_shape draw_advanced_shapes orig_draw_shape
  norm_num

end Polycore
